import Mathlib

/-!
Shallow embedding of the position-accounting engine in
`programs/clearing_house/src/controller/position.rs`.

Machine integers are modelled as `Nat` (u128) and `Int` (i128) together with
checked arithmetic that fails, as the Rust `checked_*` operations do, exactly
when the mathematical result leaves the machine range.  Fallible Rust
functions returning `ClearingHouseResult` are modelled with `Except`; since
the Rust code mutates its arguments through mutable references, an error
outcome carries the state as mutated up to the point of the early return,
which is exactly what a caller holding the mutable borrows observes.

External collaborators that are not part of this file of the repository
(the AMM swap functions, the collateral update helper and the PnL helper)
are taken as parameters of the engine functions, so every theorem below is
quantified over all possible behaviours of those collaborators.

Code blocks that the source repeats verbatim across the five engine
functions (the opening-event block, the long/short bucket update, the
proportional cost-basis computation, the PnL subtraction) are factored into
named helper definitions used at exactly the places the source repeats
them.
-/

set_option autoImplicit false
set_option maxRecDepth 8192

namespace ClearingHouse

/-- Width constant of the unsigned 128-bit machine integers of the source. -/
def U128_MOD : Nat := 2 ^ 128

def I128_MIN : Int := -(2 ^ 127)

def I128_MAX : Int := 2 ^ 127 - 1

/-- Rust `u128::checked_add`. -/
def checked_add_u128 (a b : Nat) : Option Nat :=
  if a + b < U128_MOD then some (a + b) else none

/-- Rust `u128::checked_sub`. -/
def checked_sub_u128 (a b : Nat) : Option Nat :=
  if b ≤ a then some (a - b) else none

/-- Rust `u128::checked_mul`. -/
def checked_mul_u128 (a b : Nat) : Option Nat :=
  if a * b < U128_MOD then some (a * b) else none

/-- Rust `u128::checked_div`: fails exactly on division by zero. -/
def checked_div_u128 (a b : Nat) : Option Nat :=
  if b = 0 then none else some (a / b)

/-- Rust `i128::checked_add`. -/
def checked_add_i128 (a b : Int) : Option Int :=
  if I128_MIN ≤ a + b ∧ a + b ≤ I128_MAX then some (a + b) else none

/-- Rust `i128::checked_sub`. -/
def checked_sub_i128 (a b : Int) : Option Int :=
  if I128_MIN ≤ a - b ∧ a - b ≤ I128_MAX then some (a - b) else none

/-- Rust `cast_to_i128` on a `u128` (`u128 -> i128` via `TryInto`):
fails when the value does not fit in `i128`. -/
def cast_to_i128 (a : Nat) : Option Int :=
  if (a : Int) ≤ I128_MAX then some (a : Int) else none

/-- Rust `i128::abs`, which aborts (overflow) at `i128::MIN`. -/
def abs_i128 (a : Int) : Option Int :=
  if a = I128_MIN then none else some (a.natAbs : Int)

inductive PositionDirection where
  | Long
  | Short
deriving DecidableEq, Repr

inductive SwapDirection where
  | Add
  | Remove
deriving DecidableEq, Repr

/-- Modelled from the spec: the AMM state is opaque to this engine except
for the two cumulative funding rate fields read at position-open time; the
rest of the pricing state is abstracted into a single field. -/
structure AMM where
  cumulative_funding_rate_long : Int
  cumulative_funding_rate_short : Int
  pricing_state : Nat
deriving DecidableEq, Repr

/-- Modelled from the spec: the Market fields this engine reads and writes
(section 3 of the spec); further fields of the on-chain account are never
touched by the code under verification. -/
structure Market where
  amm : AMM
  base_asset_amount : Int
  base_asset_amount_long : Int
  base_asset_amount_short : Int
  open_interest : Nat
deriving DecidableEq, Repr

/-- Modelled from the spec: the MarketPosition slot, with the exact field
list used by the struct literal in `add_new_position`. -/
structure MarketPosition where
  market_index : Nat
  base_asset_amount : Int
  quote_asset_amount : Nat
  last_cumulative_funding_rate : Int
  last_cumulative_repeg_rebate : Nat
  last_funding_rate_ts : Int
  open_orders : Nat
  padding0 : Nat
  padding1 : Nat
  padding2 : Nat
  padding3 : Nat
  padding4 : Nat
  padding5 : Nat
  padding6 : Nat
deriving DecidableEq, Repr

/-- Modelled from the spec: the User fields this engine touches; collateral
is signed, the sole destination of realized PnL. -/
structure User where
  collateral : Int
deriving DecidableEq, Repr

/-- Modelled from the spec: a fixed-capacity ordered sequence of position
slots; the engine only scans and updates in place, never resizes. -/
structure UserPositions where
  positions : List MarketPosition
deriving DecidableEq, Repr

inductive ErrorCode where
  | MaxNumberOfPositions
  | UserHasNoPositionInMarket
deriving DecidableEq, Repr

/-- Modelled from the spec: a slot is available when flat
(`base_asset_amount == 0`). -/
def MarketPosition.is_available (p : MarketPosition) : Bool :=
  p.base_asset_amount = 0

/-- Type of the external AMM quote-asset swap
(`controller::amm::swap_quote_asset`): mutates the AMM state and returns a
signed base-asset delta, or fails. -/
abbrev SwapQuoteFn :=
  AMM → Nat → SwapDirection → Int → Option Nat → Option (AMM × Int)

/-- Type of the external AMM base-asset swap
(`controller::amm::swap_base_asset`): mutates the AMM state and returns an
unsigned quote-asset amount, or fails. -/
abbrev SwapBaseFn :=
  AMM → Nat → SwapDirection → Int → Option (AMM × Nat)

/-- Type of the external `calculate_updated_collateral` helper. -/
abbrev CollateralFn := Int → Int → Option Int

/-- Type of the external `calculate_pnl` helper. -/
abbrev PnlFn := Nat → Nat → SwapDirection → Option Int

/-- The funding-rate snapshot value chosen by the trade direction. -/
def funding_rate_for (direction : PositionDirection) (market : Market) : Int :=
  match direction with
  | PositionDirection.Long => market.amm.cumulative_funding_rate_long
  | PositionDirection.Short => market.amm.cumulative_funding_rate_short

/-- Swap-direction mapping of the quote-denominated entry points
(`increase` and `reduce`): Long trades Add, Short trades Remove. -/
def quote_swap_direction (direction : PositionDirection) : SwapDirection :=
  match direction with
  | PositionDirection.Long => SwapDirection.Add
  | PositionDirection.Short => SwapDirection.Remove

/-- Swap-direction mapping of the base-denominated entry points
(`increase_with_base_asset_amount` and `reduce_with_base_asset_amount`),
inverted relative to the quote-denominated mapping. -/
def base_swap_direction (direction : PositionDirection) : SwapDirection :=
  match direction with
  | PositionDirection.Long => SwapDirection.Remove
  | PositionDirection.Short => SwapDirection.Add

/-- The swap direction of `close`: from the sign of the current base
exposure (positive means Add, otherwise Remove). -/
def close_swap_direction (pos_base : Int) : SwapDirection :=
  if pos_base > 0 then SwapDirection.Add else SwapDirection.Remove

/-- The opening-event block shared verbatim by `increase` and
`increase_with_base_asset_amount`: when the position is flat, snapshot the
funding rate for the direction, then increment the open interest with
checked arithmetic.  The error payload is the state after the snapshot
write, which has already happened when the increment fails. -/
def open_position_step (direction : PositionDirection) (market : Market)
    (market_position : MarketPosition) :
    Except (Market × MarketPosition) (Market × MarketPosition) :=
  if market_position.base_asset_amount = 0 then
    let pos1 : MarketPosition :=
      { market_position with
        last_cumulative_funding_rate := funding_rate_for direction market }
    match checked_add_u128 market.open_interest 1 with
    | none => Except.error (market, pos1)
    | some oi => Except.ok ({ market with open_interest := oi }, pos1)
  else Except.ok (market, market_position)

/-- The long/short bucket update shared verbatim by the increase and reduce
functions: accumulate the signed delta into the long bucket when the
position base amount is now positive, else into the short bucket. -/
def add_to_buckets (market : Market) (pos_base delta : Int) : Option Market :=
  if pos_base > 0 then
    (checked_add_i128 market.base_asset_amount_long delta).map
      (fun l => { market with base_asset_amount_long := l })
  else
    (checked_add_i128 market.base_asset_amount_short delta).map
      (fun s => { market with base_asset_amount_short := s })

/-- The bucket update of `close`: subtract the pre-reset base amount from
the bucket matching its sign. -/
def sub_from_buckets (market : Market) (pos_base : Int) : Option Market :=
  if pos_base > 0 then
    (checked_sub_i128 market.base_asset_amount_long pos_base).map
      (fun l => { market with base_asset_amount_long := l })
  else
    (checked_sub_i128 market.base_asset_amount_short pos_base).map
      (fun s => { market with base_asset_amount_short := s })

/-- The proportional cost-basis computation shared verbatim by both reduce
functions: `quote * |before - after| / |before|`, where the difference is a
checked subtraction, the absolute value is the aborting `i128::abs`, and
multiplication and division are checked (division fails exactly when
`before == 0`). -/
def close_cost_basis (quote : Nat) (before after : Int) : Option Nat :=
  (checked_sub_i128 before after).bind fun diff =>
    (abs_i128 diff).bind fun base_asset_amount_change =>
      (checked_mul_u128 quote base_asset_amount_change.natAbs).bind fun numerator =>
        checked_div_u128 numerator before.natAbs

/-- The PnL arm shared by both reduce functions: cast both unsigned
amounts to i128, then checked-subtract. -/
def pnl_sub (a b : Nat) : Option Int :=
  (cast_to_i128 a).bind fun x =>
    (cast_to_i128 b).bind fun y => checked_sub_i128 x y

/-- The signed base delta of the base-denominated entry points: positive
for Long, negated for Short, via the fallible cast. -/
def signed_base_amount (direction : PositionDirection) (base_asset_amount : Nat) :
    Option Int :=
  match direction with
  | PositionDirection.Long => cast_to_i128 base_asset_amount
  | PositionDirection.Short => (cast_to_i128 base_asset_amount).map (fun v => -v)

/-- The open-interest update of both reduce functions: subtract 1 exactly
when the position base amount is now zero (`cast` of the Rust boolean). -/
def decrement_oi_if_flat (open_interest : Nat) (pos_base : Int) : Option Nat :=
  checked_sub_u128 open_interest (if pos_base = 0 then 1 else 0)

/-- The PnL arm of `reduce`: branch on the sign of the post-update position. -/
def reduce_pnl (pos_base : Int) (quote_asset_swap_amount closed : Nat) : Option Int :=
  if pos_base > 0 then pnl_sub quote_asset_swap_amount closed
  else pnl_sub closed quote_asset_swap_amount

/-- The PnL arm of `reduce_with_base_asset_amount`: branch on the trade
direction being Short. -/
def reduce_base_pnl (direction : PositionDirection)
    (quote_asset_swapped closed : Nat) : Option Int :=
  if PositionDirection.Short = direction then pnl_sub quote_asset_swapped closed
  else pnl_sub closed quote_asset_swapped

/-- `add_new_position`: scan for the first available slot, overwrite it with
a fresh zeroed position for `market_index`, return its index. -/
def add_new_position (user_positions : UserPositions) (market_index : Nat) :
    Except ErrorCode (UserPositions × Nat) :=
  match user_positions.positions.findIdx? (fun p => p.is_available) with
  | none => Except.error ErrorCode.MaxNumberOfPositions
  | some new_position_index =>
    let new_market_position : MarketPosition :=
      { market_index := market_index
        base_asset_amount := 0
        quote_asset_amount := 0
        last_cumulative_funding_rate := 0
        last_cumulative_repeg_rebate := 0
        last_funding_rate_ts := 0
        open_orders := 0
        padding0 := 0, padding1 := 0, padding2 := 0, padding3 := 0
        padding4 := 0, padding5 := 0, padding6 := 0 }
    Except.ok
      ({ positions := user_positions.positions.set new_position_index new_market_position },
        new_position_index)

/-- `increase`: quote-denominated position increase.  The error payload is
the pair (market, position) as mutated up to the failing step. -/
def increase (swap_quote_asset : SwapQuoteFn) (direction : PositionDirection)
    (quote_asset_amount : Nat) (market : Market) (market_position : MarketPosition)
    (now : Int) : Except (Market × MarketPosition) (Market × MarketPosition × Int) :=
  if quote_asset_amount = 0 then Except.ok (market, market_position, 0)
  else
    match open_position_step direction market market_position with
    | Except.error e => Except.error e
    | Except.ok (market1, pos1) =>
      match checked_add_u128 pos1.quote_asset_amount quote_asset_amount with
      | none => Except.error (market1, pos1)
      | some q =>
        let pos2 : MarketPosition := { pos1 with quote_asset_amount := q }
        match
          swap_quote_asset market1.amm quote_asset_amount
            (quote_swap_direction direction) now none with
        | none => Except.error (market1, pos2)
        | some (amm1, base_asset_acquired) =>
          let market2 : Market := { market1 with amm := amm1 }
          match checked_add_i128 pos2.base_asset_amount base_asset_acquired with
          | none => Except.error (market2, pos2)
          | some pb =>
            let pos3 : MarketPosition := { pos2 with base_asset_amount := pb }
            match checked_add_i128 market2.base_asset_amount base_asset_acquired with
            | none => Except.error (market2, pos3)
            | some mb =>
              let market3 : Market := { market2 with base_asset_amount := mb }
              match add_to_buckets market3 pos3.base_asset_amount base_asset_acquired with
              | none => Except.error (market3, pos3)
              | some market4 => Except.ok (market4, pos3, base_asset_acquired)

/-- `increase_with_base_asset_amount`: base-denominated position increase. -/
def increase_with_base_asset_amount (swap_base_asset : SwapBaseFn)
    (direction : PositionDirection) (base_asset_amount : Nat) (market : Market)
    (market_position : MarketPosition) (now : Int) :
    Except (Market × MarketPosition) (Market × MarketPosition) :=
  if base_asset_amount = 0 then Except.ok (market, market_position)
  else
    match open_position_step direction market market_position with
    | Except.error e => Except.error e
    | Except.ok (market1, pos1) =>
      match
        swap_base_asset market1.amm base_asset_amount
          (base_swap_direction direction) now with
      | none => Except.error (market1, pos1)
      | some (amm1, quote_asset_swapped) =>
        let market2 : Market := { market1 with amm := amm1 }
        match checked_add_u128 pos1.quote_asset_amount quote_asset_swapped with
        | none => Except.error (market2, pos1)
        | some q =>
          let pos2 : MarketPosition := { pos1 with quote_asset_amount := q }
          match signed_base_amount direction base_asset_amount with
          | none => Except.error (market2, pos2)
          | some signed_delta =>
            match checked_add_i128 pos2.base_asset_amount signed_delta with
            | none => Except.error (market2, pos2)
            | some pb =>
              let pos3 : MarketPosition := { pos2 with base_asset_amount := pb }
              match checked_add_i128 market2.base_asset_amount signed_delta with
              | none => Except.error (market2, pos3)
              | some mb =>
                let market3 : Market := { market2 with base_asset_amount := mb }
                match add_to_buckets market3 pos3.base_asset_amount signed_delta with
                | none => Except.error (market3, pos3)
                | some market4 => Except.ok (market4, pos3)

/-- `reduce`: quote-denominated position reduce, realizing proportional PnL
into the user collateral.  The error payload is the triple
(user, market, position) as mutated up to the failing step. -/
def reduce (swap_quote_asset : SwapQuoteFn)
    (calculate_updated_collateral : CollateralFn) (direction : PositionDirection)
    (quote_asset_swap_amount : Nat) (user : User) (market : Market)
    (market_position : MarketPosition) (now : Int)
    (precomputed_mark_price : Option Nat) :
    Except (User × Market × MarketPosition) (User × Market × MarketPosition × Int) :=
  match
    swap_quote_asset market.amm quote_asset_swap_amount
      (quote_swap_direction direction) now precomputed_mark_price with
  | none => Except.error (user, market, market_position)
  | some (amm1, base_asset_swapped) =>
    let market1 : Market := { market with amm := amm1 }
    let base_asset_amount_before : Int := market_position.base_asset_amount
    match checked_add_i128 market_position.base_asset_amount base_asset_swapped with
    | none => Except.error (user, market1, market_position)
    | some pb =>
      let pos1 : MarketPosition := { market_position with base_asset_amount := pb }
      match decrement_oi_if_flat market1.open_interest pos1.base_asset_amount with
      | none => Except.error (user, market1, pos1)
      | some oi =>
        let market2 : Market := { market1 with open_interest := oi }
        match checked_add_i128 market2.base_asset_amount base_asset_swapped with
        | none => Except.error (user, market2, pos1)
        | some mb =>
          let market3 : Market := { market2 with base_asset_amount := mb }
          match add_to_buckets market3 pos1.base_asset_amount base_asset_swapped with
          | none => Except.error (user, market3, pos1)
          | some market4 =>
            match
              close_cost_basis pos1.quote_asset_amount base_asset_amount_before
                pos1.base_asset_amount with
            | none => Except.error (user, market4, pos1)
            | some initial_quote_asset_amount_closed =>
              match
                checked_sub_u128 pos1.quote_asset_amount
                  initial_quote_asset_amount_closed with
              | none => Except.error (user, market4, pos1)
              | some q =>
                let pos2 : MarketPosition := { pos1 with quote_asset_amount := q }
                match
                  reduce_pnl pos2.base_asset_amount quote_asset_swap_amount
                    initial_quote_asset_amount_closed with
                | none => Except.error (user, market4, pos2)
                | some pnl =>
                  match calculate_updated_collateral user.collateral pnl with
                  | none => Except.error (user, market4, pos2)
                  | some c =>
                    Except.ok ({ collateral := c }, market4, pos2, base_asset_swapped)

/-- `reduce_with_base_asset_amount`: base-denominated position reduce. -/
def reduce_with_base_asset_amount (swap_base_asset : SwapBaseFn)
    (calculate_updated_collateral : CollateralFn) (direction : PositionDirection)
    (base_asset_amount : Nat) (user : User) (market : Market)
    (market_position : MarketPosition) (now : Int) :
    Except (User × Market × MarketPosition) (User × Market × MarketPosition) :=
  match
    swap_base_asset market.amm base_asset_amount
      (base_swap_direction direction) now with
  | none => Except.error (user, market, market_position)
  | some (amm1, quote_asset_swapped) =>
    let market1 : Market := { market with amm := amm1 }
    match signed_base_amount direction base_asset_amount with
    | none => Except.error (user, market1, market_position)
    | some signed_delta =>
      let base_asset_amount_before : Int := market_position.base_asset_amount
      match checked_add_i128 market_position.base_asset_amount signed_delta with
      | none => Except.error (user, market1, market_position)
      | some pb =>
        let pos1 : MarketPosition := { market_position with base_asset_amount := pb }
        match decrement_oi_if_flat market1.open_interest pos1.base_asset_amount with
        | none => Except.error (user, market1, pos1)
        | some oi =>
          let market2 : Market := { market1 with open_interest := oi }
          match checked_add_i128 market2.base_asset_amount signed_delta with
          | none => Except.error (user, market2, pos1)
          | some mb =>
            let market3 : Market := { market2 with base_asset_amount := mb }
            match add_to_buckets market3 pos1.base_asset_amount signed_delta with
            | none => Except.error (user, market3, pos1)
            | some market4 =>
              match
                close_cost_basis pos1.quote_asset_amount base_asset_amount_before
                  pos1.base_asset_amount with
              | none => Except.error (user, market4, pos1)
              | some initial_quote_asset_amount_closed =>
                match
                  checked_sub_u128 pos1.quote_asset_amount
                    initial_quote_asset_amount_closed with
                | none => Except.error (user, market4, pos1)
                | some q =>
                  let pos2 : MarketPosition := { pos1 with quote_asset_amount := q }
                  match
                    reduce_base_pnl direction quote_asset_swapped
                      initial_quote_asset_amount_closed with
                  | none => Except.error (user, market4, pos2)
                  | some pnl =>
                    match calculate_updated_collateral user.collateral pnl with
                    | none => Except.error (user, market4, pos2)
                    | some c =>
                      Except.ok ({ collateral := c }, market4, pos2)

/-- `close`: fully unwind a position, realizing all remaining PnL.  Returns
the quote-terms value of the swap and the pre-reset base amount. -/
def close (swap_base_asset : SwapBaseFn) (calculate_pnl : PnlFn)
    (calculate_updated_collateral : CollateralFn) (user : User) (market : Market)
    (market_position : MarketPosition) (now : Int) :
    Except (User × Market × MarketPosition) (User × Market × MarketPosition × Nat × Int) :=
  if market_position.base_asset_amount = 0 then
    Except.ok (user, market, market_position, 0, 0)
  else
    match
      swap_base_asset market.amm market_position.base_asset_amount.natAbs
        (close_swap_direction market_position.base_asset_amount) now with
    | none => Except.error (user, market, market_position)
    | some (amm1, base_asset_value) =>
      let market1 : Market := { market with amm := amm1 }
      match
        calculate_pnl base_asset_value market_position.quote_asset_amount
          (close_swap_direction market_position.base_asset_amount) with
      | none => Except.error (user, market1, market_position)
      | some pnl =>
        match calculate_updated_collateral user.collateral pnl with
        | none => Except.error (user, market1, market_position)
        | some c =>
          let user1 : User := { collateral := c }
          let pos1 : MarketPosition :=
            { market_position with
              last_cumulative_funding_rate := 0
              last_funding_rate_ts := 0 }
          match checked_sub_u128 market1.open_interest 1 with
          | none => Except.error (user1, market1, pos1)
          | some oi =>
            let market2 : Market := { market1 with open_interest := oi }
            let pos2 : MarketPosition := { pos1 with quote_asset_amount := 0 }
            match
              checked_sub_i128 market2.base_asset_amount pos2.base_asset_amount with
            | none => Except.error (user1, market2, pos2)
            | some mb =>
              let market3 : Market := { market2 with base_asset_amount := mb }
              match sub_from_buckets market3 pos2.base_asset_amount with
              | none => Except.error (user1, market3, pos2)
              | some market4 =>
                let prior_base_asset_amount : Int := pos2.base_asset_amount
                let pos3 : MarketPosition := { pos2 with base_asset_amount := 0 }
                Except.ok (user1, market4, pos3, base_asset_value,
                  prior_base_asset_amount)

/-! ### Elimination lemmas for the checked operations -/

theorem checked_add_u128_some {a b c : Nat} (h : checked_add_u128 a b = some c) :
    c = a + b := by
  unfold checked_add_u128 at h
  split at h
  · exact (Option.some.inj h).symm
  · exact Option.noConfusion h

theorem checked_sub_u128_some {a b c : Nat} (h : checked_sub_u128 a b = some c) :
    b ≤ a ∧ c = a - b := by
  unfold checked_sub_u128 at h
  split at h
  · exact ⟨by assumption, (Option.some.inj h).symm⟩
  · exact Option.noConfusion h

theorem checked_mul_u128_some {a b c : Nat} (h : checked_mul_u128 a b = some c) :
    c = a * b := by
  unfold checked_mul_u128 at h
  split at h
  · exact (Option.some.inj h).symm
  · exact Option.noConfusion h

theorem checked_div_u128_some {a b c : Nat} (h : checked_div_u128 a b = some c) :
    b ≠ 0 ∧ c = a / b := by
  unfold checked_div_u128 at h
  split at h
  · exact Option.noConfusion h
  · exact ⟨by assumption, (Option.some.inj h).symm⟩

theorem checked_add_i128_some {a b c : Int} (h : checked_add_i128 a b = some c) :
    c = a + b := by
  unfold checked_add_i128 at h
  split at h
  · exact (Option.some.inj h).symm
  · exact Option.noConfusion h

theorem checked_sub_i128_some {a b c : Int} (h : checked_sub_i128 a b = some c) :
    c = a - b := by
  unfold checked_sub_i128 at h
  split at h
  · exact (Option.some.inj h).symm
  · exact Option.noConfusion h

theorem cast_to_i128_some {a : Nat} {c : Int} (h : cast_to_i128 a = some c) :
    c = (a : Int) := by
  unfold cast_to_i128 at h
  split at h
  · exact (Option.some.inj h).symm
  · exact Option.noConfusion h

theorem abs_i128_some {a c : Int} (h : abs_i128 a = some c) : c = (a.natAbs : Int) := by
  unfold abs_i128 at h
  split at h
  · exact Option.noConfusion h
  · exact (Option.some.inj h).symm

/-! ### Elimination lemmas for the shared blocks -/

theorem open_position_step_ok {direction : PositionDirection} {market : Market}
    {market_position : MarketPosition} {m1 : Market} {p1 : MarketPosition}
    (h : open_position_step direction market market_position = Except.ok (m1, p1)) :
    m1.amm = market.amm ∧
    m1.base_asset_amount = market.base_asset_amount ∧
    m1.base_asset_amount_long = market.base_asset_amount_long ∧
    m1.base_asset_amount_short = market.base_asset_amount_short ∧
    p1.base_asset_amount = market_position.base_asset_amount ∧
    p1.quote_asset_amount = market_position.quote_asset_amount ∧
    (market_position.base_asset_amount = 0 →
      p1.last_cumulative_funding_rate = funding_rate_for direction market ∧
      m1.open_interest = market.open_interest + 1) ∧
    (market_position.base_asset_amount ≠ 0 →
      p1.last_cumulative_funding_rate = market_position.last_cumulative_funding_rate ∧
      m1.open_interest = market.open_interest) := by
  unfold open_position_step at h
  split at h
  · rename_i hflat
    split at h
    · exact Except.noConfusion h
    · rename_i oi hoi
      have hoi' := checked_add_u128_some hoi
      injection h with h
      injection h with hm hp
      subst hm; subst hp; subst hoi'
      refine ⟨rfl, rfl, rfl, rfl, by simp [hflat], rfl, fun _ => ⟨rfl, rfl⟩, fun hne => ?_⟩
      exact absurd hflat hne
  · rename_i hne
    injection h with h
    injection h with hm hp
    subst hm; subst hp
    exact ⟨rfl, rfl, rfl, rfl, rfl, rfl, fun hflat => absurd hflat hne, fun _ => ⟨rfl, rfl⟩⟩

theorem add_to_buckets_some {market : Market} {pos_base delta : Int} {m4 : Market}
    (h : add_to_buckets market pos_base delta = some m4) :
    m4.amm = market.amm ∧
    m4.base_asset_amount = market.base_asset_amount ∧
    m4.open_interest = market.open_interest ∧
    (0 < pos_base →
      m4.base_asset_amount_long = market.base_asset_amount_long + delta ∧
      m4.base_asset_amount_short = market.base_asset_amount_short) ∧
    (¬0 < pos_base →
      m4.base_asset_amount_short = market.base_asset_amount_short + delta ∧
      m4.base_asset_amount_long = market.base_asset_amount_long) := by
  unfold add_to_buckets at h
  split at h
  · rename_i hpos
    match hl : checked_add_i128 market.base_asset_amount_long delta with
    | none => rw [hl] at h; exact Option.noConfusion h
    | some l =>
      rw [hl] at h
      have hl' := checked_add_i128_some hl
      injection h with h
      subst h; subst hl'
      exact ⟨rfl, rfl, rfl, fun _ => ⟨rfl, rfl⟩, fun hn => absurd hpos hn⟩
  · rename_i hpos
    match hs : checked_add_i128 market.base_asset_amount_short delta with
    | none => rw [hs] at h; exact Option.noConfusion h
    | some s =>
      rw [hs] at h
      have hs' := checked_add_i128_some hs
      injection h with h
      subst h; subst hs'
      exact ⟨rfl, rfl, rfl, fun hp => absurd hp hpos, fun _ => ⟨rfl, rfl⟩⟩

theorem sub_from_buckets_some {market : Market} {pos_base : Int} {m4 : Market}
    (h : sub_from_buckets market pos_base = some m4) :
    m4.amm = market.amm ∧
    m4.base_asset_amount = market.base_asset_amount ∧
    m4.open_interest = market.open_interest ∧
    (0 < pos_base →
      m4.base_asset_amount_long = market.base_asset_amount_long - pos_base ∧
      m4.base_asset_amount_short = market.base_asset_amount_short) ∧
    (¬0 < pos_base →
      m4.base_asset_amount_short = market.base_asset_amount_short - pos_base ∧
      m4.base_asset_amount_long = market.base_asset_amount_long) := by
  unfold sub_from_buckets at h
  split at h
  · rename_i hpos
    match hl : checked_sub_i128 market.base_asset_amount_long pos_base with
    | none => rw [hl] at h; exact Option.noConfusion h
    | some l =>
      rw [hl] at h
      have hl' := checked_sub_i128_some hl
      injection h with h
      subst h; subst hl'
      exact ⟨rfl, rfl, rfl, fun _ => ⟨rfl, rfl⟩, fun hn => absurd hpos hn⟩
  · rename_i hpos
    match hs : checked_sub_i128 market.base_asset_amount_short pos_base with
    | none => rw [hs] at h; exact Option.noConfusion h
    | some s =>
      rw [hs] at h
      have hs' := checked_sub_i128_some hs
      injection h with h
      subst h; subst hs'
      exact ⟨rfl, rfl, rfl, fun hp => absurd hp hpos, fun _ => ⟨rfl, rfl⟩⟩

theorem close_cost_basis_some {quote : Nat} {before after : Int} {c : Nat}
    (h : close_cost_basis quote before after = some c) :
    before ≠ 0 ∧ c = quote * (before - after).natAbs / before.natAbs := by
  unfold close_cost_basis at h
  match hd : checked_sub_i128 before after with
  | none => rw [hd] at h; exact Option.noConfusion h
  | some diff =>
    rw [hd] at h
    simp only [Option.bind_some, Option.some_bind] at h
    match ha : abs_i128 diff with
    | none => rw [ha] at h; exact Option.noConfusion h
    | some change =>
      rw [ha] at h
      simp only [Option.bind_some, Option.some_bind] at h
      match hm : checked_mul_u128 quote change.natAbs with
      | none => rw [hm] at h; exact Option.noConfusion h
      | some numerator =>
        rw [hm] at h
        simp only [Option.bind_some, Option.some_bind] at h
        have hdiv := checked_div_u128_some h
        have hd' := checked_sub_i128_some hd
        have ha' := abs_i128_some ha
        have hm' := checked_mul_u128_some hm
        constructor
        · intro h0
          exact hdiv.1 (by simp [h0])
        · rw [hdiv.2, hm', ha', hd']
          simp [Int.natAbs_abs]

theorem pnl_sub_some {a b : Nat} {v : Int} (h : pnl_sub a b = some v) :
    v = (a : Int) - (b : Int) := by
  unfold pnl_sub at h
  match hx : cast_to_i128 a with
  | none => rw [hx] at h; exact Option.noConfusion h
  | some x =>
    rw [hx] at h
    simp only [Option.bind_some, Option.some_bind] at h
    match hy : cast_to_i128 b with
    | none => rw [hy] at h; exact Option.noConfusion h
    | some y =>
      rw [hy] at h
      simp only [Option.bind_some, Option.some_bind] at h
      rw [checked_sub_i128_some h, cast_to_i128_some hx, cast_to_i128_some hy]

theorem signed_base_amount_some {direction : PositionDirection} {ba : Nat} {v : Int}
    (h : signed_base_amount direction ba = some v) :
    (direction = PositionDirection.Long → v = (ba : Int)) ∧
    (direction = PositionDirection.Short → v = -(ba : Int)) := by
  unfold signed_base_amount at h
  cases direction with
  | Long =>
    exact ⟨fun _ => cast_to_i128_some h, fun hc => PositionDirection.noConfusion hc⟩
  | Short =>
    match hx : cast_to_i128 ba with
    | none => rw [hx] at h; exact Option.noConfusion h
    | some x =>
      rw [hx] at h
      simp only [Option.map_some] at h
      refine ⟨fun hc => PositionDirection.noConfusion hc, fun _ => ?_⟩
      rw [← Option.some.inj h, cast_to_i128_some hx]


theorem increase_ok_spec {swap_quote_asset : SwapQuoteFn} {direction : PositionDirection}
    {quote_asset_amount : Nat} {market : Market} {market_position : MarketPosition}
    {now : Int} {m' : Market} {p' : MarketPosition} {d : Int}
    (hqa : quote_asset_amount ≠ 0)
    (h : increase swap_quote_asset direction quote_asset_amount market market_position now =
      Except.ok (m', p', d)) :
    p'.quote_asset_amount = market_position.quote_asset_amount + quote_asset_amount ∧
    p'.base_asset_amount = market_position.base_asset_amount + d ∧
    m'.base_asset_amount = market.base_asset_amount + d ∧
    (0 < p'.base_asset_amount →
      m'.base_asset_amount_long = market.base_asset_amount_long + d ∧
      m'.base_asset_amount_short = market.base_asset_amount_short) ∧
    (¬0 < p'.base_asset_amount →
      m'.base_asset_amount_short = market.base_asset_amount_short + d ∧
      m'.base_asset_amount_long = market.base_asset_amount_long) ∧
    (market_position.base_asset_amount = 0 →
      p'.last_cumulative_funding_rate = funding_rate_for direction market ∧
      m'.open_interest = market.open_interest + 1) ∧
    (market_position.base_asset_amount ≠ 0 →
      p'.last_cumulative_funding_rate = market_position.last_cumulative_funding_rate ∧
      m'.open_interest = market.open_interest) := by
  unfold increase at h
  rw [if_neg hqa] at h
  split at h
  · exact Except.noConfusion h
  · rename_i market1 pos1 hopen
    obtain ⟨ho_amm, ho_base, ho_long, ho_short, ho_pbase, ho_pquote, ho_flat, ho_nonflat⟩ :=
      open_position_step_ok hopen
    split at h
    · exact Except.noConfusion h
    · rename_i q hq
      have hq' := checked_add_u128_some hq
      split at h
      · exact Except.noConfusion h
      · rename_i amm1 base_asset_acquired hswap
        dsimp only [] at h
        split at h
        · exact Except.noConfusion h
        · rename_i pb hpb
          have hpb' := checked_add_i128_some hpb
          split at h
          · exact Except.noConfusion h
          · rename_i mb hmb
            have hmb' := checked_add_i128_some hmb
            split at h
            · exact Except.noConfusion h
            · rename_i market4 hbuck
              obtain ⟨hb_amm, hb_base, hb_oi, hb_pos, hb_neg⟩ := add_to_buckets_some hbuck
              injection h with h
              rw [Prod.mk.injEq, Prod.mk.injEq] at h
              obtain ⟨hm4, hp3, hdd⟩ := h
              subst hm4; subst hp3; subst hdd
              dsimp only [] at hb_amm hb_base hb_oi hb_pos hb_neg ⊢
              refine ⟨by omega, by omega, by omega, ?_, ?_, ?_, ?_⟩
              · intro hpos
                obtain ⟨hl, hs⟩ := hb_pos hpos
                constructor <;> omega
              · intro hpos
                obtain ⟨hs, hl⟩ := hb_neg hpos
                constructor <;> omega
              · intro hflat
                obtain ⟨h1, h2⟩ := ho_flat hflat
                exact ⟨h1, by omega⟩
              · intro hflat
                obtain ⟨h1, h2⟩ := ho_nonflat hflat
                exact ⟨h1, by omega⟩

theorem increase_with_base_ok_spec {swap_base_asset : SwapBaseFn}
    {direction : PositionDirection} {base_asset_amount : Nat} {market : Market}
    {market_position : MarketPosition} {now : Int} {m' : Market} {p' : MarketPosition}
    (hba : base_asset_amount ≠ 0)
    (h : increase_with_base_asset_amount swap_base_asset direction base_asset_amount
      market market_position now = Except.ok (m', p')) :
    ∃ quote_asset_swapped signed_delta,
      (direction = PositionDirection.Long → signed_delta = (base_asset_amount : Int)) ∧
      (direction = PositionDirection.Short → signed_delta = -(base_asset_amount : Int)) ∧
      p'.quote_asset_amount = market_position.quote_asset_amount + quote_asset_swapped ∧
      p'.base_asset_amount = market_position.base_asset_amount + signed_delta ∧
      m'.base_asset_amount = market.base_asset_amount + signed_delta ∧
      (0 < p'.base_asset_amount →
        m'.base_asset_amount_long = market.base_asset_amount_long + signed_delta ∧
        m'.base_asset_amount_short = market.base_asset_amount_short) ∧
      (¬0 < p'.base_asset_amount →
        m'.base_asset_amount_short = market.base_asset_amount_short + signed_delta ∧
        m'.base_asset_amount_long = market.base_asset_amount_long) ∧
      (market_position.base_asset_amount = 0 →
        p'.last_cumulative_funding_rate = funding_rate_for direction market ∧
        m'.open_interest = market.open_interest + 1) ∧
      (market_position.base_asset_amount ≠ 0 →
        p'.last_cumulative_funding_rate = market_position.last_cumulative_funding_rate ∧
        m'.open_interest = market.open_interest) := by
  unfold increase_with_base_asset_amount at h
  rw [if_neg hba] at h
  split at h
  · exact Except.noConfusion h
  · rename_i market1 pos1 hopen
    obtain ⟨ho_amm, ho_base, ho_long, ho_short, ho_pbase, ho_pquote, ho_flat, ho_nonflat⟩ :=
      open_position_step_ok hopen
    split at h
    · exact Except.noConfusion h
    · rename_i amm1 quote_asset_swapped hswap
      try dsimp only [] at h
      split at h
      · exact Except.noConfusion h
      · rename_i q hq
        have hq' := checked_add_u128_some hq
        try dsimp only [] at h
        split at h
        · exact Except.noConfusion h
        · rename_i signed_delta hsigned
          obtain ⟨hsl, hss⟩ := signed_base_amount_some hsigned
          split at h
          · exact Except.noConfusion h
          · rename_i pb hpb
            have hpb' := checked_add_i128_some hpb
            try dsimp only [] at h
            split at h
            · exact Except.noConfusion h
            · rename_i mb hmb
              have hmb' := checked_add_i128_some hmb
              try dsimp only [] at h
              split at h
              · exact Except.noConfusion h
              · rename_i market4 hbuck
                obtain ⟨hb_amm, hb_base, hb_oi, hb_pos, hb_neg⟩ := add_to_buckets_some hbuck
                injection h with h
                rw [Prod.mk.injEq] at h
                obtain ⟨hm4, hp3⟩ := h
                subst hm4; subst hp3
                dsimp only [] at hb_amm hb_base hb_oi hb_pos hb_neg ⊢
                refine ⟨quote_asset_swapped, signed_delta, hsl, hss, by omega, by omega,
                  by omega, ?_, ?_, ?_, ?_⟩
                · intro hpos
                  obtain ⟨hl, hs⟩ := hb_pos hpos
                  constructor <;> omega
                · intro hpos
                  obtain ⟨hs, hl⟩ := hb_neg hpos
                  constructor <;> omega
                · intro hflat
                  obtain ⟨h1, h2⟩ := ho_flat hflat
                  exact ⟨h1, by omega⟩
                · intro hflat
                  obtain ⟨h1, h2⟩ := ho_nonflat hflat
                  exact ⟨h1, by omega⟩

theorem decrement_oi_if_flat_some {oi : Nat} {pos_base : Int} {oi2 : Nat}
    (h : decrement_oi_if_flat oi pos_base = some oi2) :
    oi2 = oi - (if pos_base = 0 then 1 else 0) ∧
    (if pos_base = 0 then 1 else 0) ≤ oi := by
  unfold decrement_oi_if_flat at h
  obtain ⟨hle, heq⟩ := checked_sub_u128_some h
  exact ⟨heq, hle⟩

theorem reduce_pnl_some {pos_base : Int} {quote_asset_swap_amount closed : Nat} {v : Int}
    (h : reduce_pnl pos_base quote_asset_swap_amount closed = some v) :
    v = if 0 < pos_base then (quote_asset_swap_amount : Int) - (closed : Int)
        else (closed : Int) - (quote_asset_swap_amount : Int) := by
  unfold reduce_pnl at h
  split at h
  · rename_i hpos
    rw [if_pos hpos]
    exact pnl_sub_some h
  · rename_i hpos
    rw [if_neg hpos]
    exact pnl_sub_some h

theorem reduce_base_pnl_some {direction : PositionDirection}
    {quote_asset_swapped closed : Nat} {v : Int}
    (h : reduce_base_pnl direction quote_asset_swapped closed = some v) :
    v = if direction = PositionDirection.Short
        then (quote_asset_swapped : Int) - (closed : Int)
        else (closed : Int) - (quote_asset_swapped : Int) := by
  unfold reduce_base_pnl at h
  split at h
  · rename_i hdir
    rw [if_pos hdir.symm]
    exact pnl_sub_some h
  · rename_i hdir
    rw [if_neg (fun hc => hdir hc.symm)]
    exact pnl_sub_some h

theorem reduce_ok_spec {swap_quote_asset : SwapQuoteFn}
    {calculate_updated_collateral : CollateralFn} {direction : PositionDirection}
    {quote_asset_swap_amount : Nat} {user : User} {market : Market}
    {market_position : MarketPosition} {now : Int} {precomputed_mark_price : Option Nat}
    {u' : User} {m' : Market} {p' : MarketPosition} {d : Int}
    (h : reduce swap_quote_asset calculate_updated_collateral direction
      quote_asset_swap_amount user market market_position now precomputed_mark_price =
      Except.ok (u', m', p', d)) :
    market_position.base_asset_amount ≠ 0 ∧
    p'.base_asset_amount = market_position.base_asset_amount + d ∧
    m'.base_asset_amount = market.base_asset_amount + d ∧
    m'.open_interest =
      market.open_interest - (if p'.base_asset_amount = 0 then 1 else 0) ∧
    (if p'.base_asset_amount = 0 then 1 else 0) ≤ market.open_interest ∧
    (0 < p'.base_asset_amount →
      m'.base_asset_amount_long = market.base_asset_amount_long + d ∧
      m'.base_asset_amount_short = market.base_asset_amount_short) ∧
    (¬0 < p'.base_asset_amount →
      m'.base_asset_amount_short = market.base_asset_amount_short + d ∧
      m'.base_asset_amount_long = market.base_asset_amount_long) ∧
    (∃ closed : Nat,
      closed = market_position.quote_asset_amount *
          (market_position.base_asset_amount - p'.base_asset_amount).natAbs /
          market_position.base_asset_amount.natAbs ∧
      closed ≤ market_position.quote_asset_amount ∧
      p'.quote_asset_amount = market_position.quote_asset_amount - closed ∧
      calculate_updated_collateral user.collateral
        (if 0 < p'.base_asset_amount
          then (quote_asset_swap_amount : Int) - (closed : Int)
          else (closed : Int) - (quote_asset_swap_amount : Int)) = some u'.collateral) := by
  unfold reduce at h
  split at h
  · exact Except.noConfusion h
  · rename_i amm1 base_asset_swapped hswap
    try dsimp only [] at h
    split at h
    · exact Except.noConfusion h
    · rename_i pb hpb
      have hpb' := checked_add_i128_some hpb
      try dsimp only [] at h
      split at h
      · exact Except.noConfusion h
      · rename_i oi hoi
        obtain ⟨hoi1, hoi2⟩ := decrement_oi_if_flat_some hoi
        try dsimp only [] at h
        split at h
        · exact Except.noConfusion h
        · rename_i mb hmb
          have hmb' := checked_add_i128_some hmb
          try dsimp only [] at h
          split at h
          · exact Except.noConfusion h
          · rename_i market4 hbuck
            obtain ⟨hb_amm, hb_base, hb_oi, hb_pos, hb_neg⟩ := add_to_buckets_some hbuck
            try dsimp only [] at h
            split at h
            · exact Except.noConfusion h
            · rename_i closed hclosed
              obtain ⟨hbefore, hclosed'⟩ := close_cost_basis_some hclosed
              try dsimp only [] at h
              split at h
              · exact Except.noConfusion h
              · rename_i q hq
                obtain ⟨hqle, hq'⟩ := checked_sub_u128_some hq
                try dsimp only [] at h
                split at h
                · exact Except.noConfusion h
                · rename_i pnl hpnl
                  have hpnl' := reduce_pnl_some hpnl
                  try dsimp only [] at h
                  split at h
                  · exact Except.noConfusion h
                  · rename_i c hcalc
                    injection h with h
                    rw [Prod.mk.injEq, Prod.mk.injEq, Prod.mk.injEq] at h
                    obtain ⟨hu, hm, hp, hd⟩ := h
                    subst hu; subst hm; subst hp; subst hd
                    dsimp only [] at hb_amm hb_base hb_oi hb_pos hb_neg ⊢
                    refine ⟨hbefore, by omega, by omega, ?_, ?_, ?_, ?_, ?_⟩
                    · rw [hb_oi, hoi1]
                    · exact hoi2
                    · intro hpos
                      obtain ⟨hl, hs⟩ := hb_pos hpos
                      constructor <;> omega
                    · intro hpos
                      obtain ⟨hs, hl⟩ := hb_neg hpos
                      constructor <;> omega
                    · refine ⟨closed, hclosed', hqle, hq', ?_⟩
                      rw [← hpnl']
                      exact hcalc

theorem reduce_with_base_ok_spec {swap_base_asset : SwapBaseFn}
    {calculate_updated_collateral : CollateralFn} {direction : PositionDirection}
    {base_asset_amount : Nat} {user : User} {market : Market}
    {market_position : MarketPosition} {now : Int}
    {u' : User} {m' : Market} {p' : MarketPosition}
    (h : reduce_with_base_asset_amount swap_base_asset calculate_updated_collateral
      direction base_asset_amount user market market_position now =
      Except.ok (u', m', p')) :
    market_position.base_asset_amount ≠ 0 ∧
    ∃ quote_asset_swapped signed_delta,
      swap_base_asset market.amm base_asset_amount (base_swap_direction direction) now =
        some (m'.amm, quote_asset_swapped) ∧
      (direction = PositionDirection.Long → signed_delta = (base_asset_amount : Int)) ∧
      (direction = PositionDirection.Short → signed_delta = -(base_asset_amount : Int)) ∧
      p'.base_asset_amount = market_position.base_asset_amount + signed_delta ∧
      m'.base_asset_amount = market.base_asset_amount + signed_delta ∧
      m'.open_interest =
        market.open_interest - (if p'.base_asset_amount = 0 then 1 else 0) ∧
      (if p'.base_asset_amount = 0 then 1 else 0) ≤ market.open_interest ∧
      (0 < p'.base_asset_amount →
        m'.base_asset_amount_long = market.base_asset_amount_long + signed_delta ∧
        m'.base_asset_amount_short = market.base_asset_amount_short) ∧
      (¬0 < p'.base_asset_amount →
        m'.base_asset_amount_short = market.base_asset_amount_short + signed_delta ∧
        m'.base_asset_amount_long = market.base_asset_amount_long) ∧
      (∃ closed : Nat,
        closed = market_position.quote_asset_amount *
            (market_position.base_asset_amount - p'.base_asset_amount).natAbs /
            market_position.base_asset_amount.natAbs ∧
        closed ≤ market_position.quote_asset_amount ∧
        p'.quote_asset_amount = market_position.quote_asset_amount - closed ∧
        calculate_updated_collateral user.collateral
          (if direction = PositionDirection.Short
            then (quote_asset_swapped : Int) - (closed : Int)
            else (closed : Int) - (quote_asset_swapped : Int)) = some u'.collateral) := by
  unfold reduce_with_base_asset_amount at h
  split at h
  · exact Except.noConfusion h
  · rename_i amm1 quote_asset_swapped hswap
    try dsimp only [] at h
    split at h
    · exact Except.noConfusion h
    · rename_i signed_delta hsigned
      obtain ⟨hsl, hss⟩ := signed_base_amount_some hsigned
      try dsimp only [] at h
      split at h
      · exact Except.noConfusion h
      · rename_i pb hpb
        have hpb' := checked_add_i128_some hpb
        try dsimp only [] at h
        split at h
        · exact Except.noConfusion h
        · rename_i oi hoi
          obtain ⟨hoi1, hoi2⟩ := decrement_oi_if_flat_some hoi
          try dsimp only [] at h
          split at h
          · exact Except.noConfusion h
          · rename_i mb hmb
            have hmb' := checked_add_i128_some hmb
            try dsimp only [] at h
            split at h
            · exact Except.noConfusion h
            · rename_i market4 hbuck
              obtain ⟨hb_amm, hb_base, hb_oi, hb_pos, hb_neg⟩ := add_to_buckets_some hbuck
              try dsimp only [] at h
              split at h
              · exact Except.noConfusion h
              · rename_i closed hclosed
                obtain ⟨hbefore, hclosed'⟩ := close_cost_basis_some hclosed
                try dsimp only [] at h
                split at h
                · exact Except.noConfusion h
                · rename_i q hq
                  obtain ⟨hqle, hq'⟩ := checked_sub_u128_some hq
                  try dsimp only [] at h
                  split at h
                  · exact Except.noConfusion h
                  · rename_i pnl hpnl
                    have hpnl' := reduce_base_pnl_some hpnl
                    try dsimp only [] at h
                    split at h
                    · exact Except.noConfusion h
                    · rename_i c hcalc
                      injection h with h
                      rw [Prod.mk.injEq, Prod.mk.injEq] at h
                      obtain ⟨hu, hm, hp⟩ := h
                      subst hu; subst hm; subst hp
                      dsimp only [] at hb_amm hb_base hb_oi hb_pos hb_neg ⊢
                      refine ⟨hbefore, quote_asset_swapped, signed_delta, ?_, hsl, hss,
                        by omega, by omega, ?_, ?_, ?_, ?_, ?_⟩
                      · rw [hb_amm]
                        exact hswap
                      · rw [hb_oi, hoi1]
                      · exact hoi2
                      · intro hpos
                        obtain ⟨hl, hs⟩ := hb_pos hpos
                        constructor <;> omega
                      · intro hpos
                        obtain ⟨hs, hl⟩ := hb_neg hpos
                        constructor <;> omega
                      · refine ⟨closed, hclosed', hqle, hq', ?_⟩
                        rw [← hpnl']
                        exact hcalc

theorem close_ok_spec {swap_base_asset : SwapBaseFn} {calculate_pnl : PnlFn}
    {calculate_updated_collateral : CollateralFn} {user : User} {market : Market}
    {market_position : MarketPosition} {now : Int}
    {u' : User} {m' : Market} {p' : MarketPosition} {bv : Nat} {pba : Int}
    (hbase : market_position.base_asset_amount ≠ 0)
    (h : close swap_base_asset calculate_pnl calculate_updated_collateral user market
      market_position now = Except.ok (u', m', p', bv, pba)) :
    swap_base_asset market.amm market_position.base_asset_amount.natAbs
        (close_swap_direction market_position.base_asset_amount) now =
      some (m'.amm, bv) ∧
    pba = market_position.base_asset_amount ∧
    p'.base_asset_amount = 0 ∧
    p'.quote_asset_amount = 0 ∧
    p'.last_cumulative_funding_rate = 0 ∧
    p'.last_funding_rate_ts = 0 ∧
    m'.open_interest = market.open_interest - 1 ∧
    1 ≤ market.open_interest ∧
    m'.base_asset_amount = market.base_asset_amount - market_position.base_asset_amount ∧
    (0 < market_position.base_asset_amount →
      m'.base_asset_amount_long =
        market.base_asset_amount_long - market_position.base_asset_amount ∧
      m'.base_asset_amount_short = market.base_asset_amount_short) ∧
    (¬0 < market_position.base_asset_amount →
      m'.base_asset_amount_short =
        market.base_asset_amount_short - market_position.base_asset_amount ∧
      m'.base_asset_amount_long = market.base_asset_amount_long) ∧
    (∃ pnl,
      calculate_pnl bv market_position.quote_asset_amount
        (close_swap_direction market_position.base_asset_amount) = some pnl ∧
      calculate_updated_collateral user.collateral pnl = some u'.collateral) := by
  unfold close at h
  rw [if_neg hbase] at h
  split at h
  · exact Except.noConfusion h
  · rename_i amm1 base_asset_value hswap
    try dsimp only [] at h
    split at h
    · exact Except.noConfusion h
    · rename_i pnl hpnl
      try dsimp only [] at h
      split at h
      · exact Except.noConfusion h
      · rename_i c hcalc
        try dsimp only [] at h
        split at h
        · exact Except.noConfusion h
        · rename_i oi hoi
          obtain ⟨hle, hoi'⟩ := checked_sub_u128_some hoi
          try dsimp only [] at h
          split at h
          · exact Except.noConfusion h
          · rename_i mb hmb
            have hmb' := checked_sub_i128_some hmb
            try dsimp only [] at h
            split at h
            · exact Except.noConfusion h
            · rename_i market4 hbuck
              obtain ⟨hb_amm, hb_base, hb_oi, hb_pos, hb_neg⟩ := sub_from_buckets_some hbuck
              injection h with h
              rw [Prod.mk.injEq, Prod.mk.injEq, Prod.mk.injEq, Prod.mk.injEq] at h
              obtain ⟨hu, hm, hp, hbv, hpba⟩ := h
              subst hu; subst hm; subst hp; subst hbv; subst hpba
              dsimp only [] at hb_amm hb_base hb_oi hb_pos hb_neg ⊢
              refine ⟨by rw [hb_amm]; exact hswap, rfl, rfl, rfl, rfl, rfl, by omega,
                hle, by omega, ?_, ?_, pnl, hpnl, hcalc⟩
              · intro hpos
                obtain ⟨hl, hs⟩ := hb_pos hpos
                constructor <;> omega
              · intro hpos
                obtain ⟨hs, hl⟩ := hb_neg hpos
                constructor <;> omega

/-! ### Example fixtures used by the witnesses -/

def ex_amm : AMM :=
  { cumulative_funding_rate_long := 5
    cumulative_funding_rate_short := -4
    pricing_state := 0 }

def ex_market_flat : Market :=
  { amm := ex_amm
    base_asset_amount := 0
    base_asset_amount_long := 0
    base_asset_amount_short := 0
    open_interest := 0 }

def ex_position_flat : MarketPosition :=
  { market_index := 0
    base_asset_amount := 0
    quote_asset_amount := 0
    last_cumulative_funding_rate := 0
    last_cumulative_repeg_rebate := 0
    last_funding_rate_ts := 0
    open_orders := 0
    padding0 := 0, padding1 := 0, padding2 := 0, padding3 := 0
    padding4 := 0, padding5 := 0, padding6 := 0 }

def ex_market_long : Market :=
  { amm := ex_amm
    base_asset_amount := 100
    base_asset_amount_long := 100
    base_asset_amount_short := 0
    open_interest := 1 }

def ex_position_long : MarketPosition :=
  { ex_position_flat with base_asset_amount := 100, quote_asset_amount := 1000 }

def ex_user : User := { collateral := 5000 }

/-- Example AMM behaviour: the quote swap always returns a base delta of 3. -/
def ex_swap_quote_3 : SwapQuoteFn := fun amm _ _ _ _ => some (amm, 3)

/-- Example AMM behaviour: the quote swap always returns a base delta of -40. -/
def ex_swap_quote_m40 : SwapQuoteFn := fun amm _ _ _ _ => some (amm, -40)

/-- Example AMM behaviour: the quote swap always returns a base delta of -100. -/
def ex_swap_quote_m100 : SwapQuoteFn := fun amm _ _ _ _ => some (amm, -100)

/-- Example AMM behaviour: the base swap always reports a quote amount of 7. -/
def ex_swap_base_7 : SwapBaseFn := fun amm _ _ _ => some (amm, 7)

/-- Example AMM behaviour: the base swap always reports a quote amount of 1200. -/
def ex_swap_base_1200 : SwapBaseFn := fun amm _ _ _ => some (amm, 1200)

/-- Example collateral update: plain signed addition. -/
def ex_collateral : CollateralFn := fun c pnl => some (c + pnl)

/-- Example PnL helper: swap value minus cost basis. -/
def ex_calculate_pnl : PnlFn := fun bv q _ => some ((bv : Int) - (q : Int))

/-! ### Claim theorems -/

/-- C8: a zero-sized request is a no-op, not an error: `increase` with a
zero quote budget returns Ok(0) and `increase_with_base_asset_amount` with a
zero base target returns Ok(()), leaving the Market (including its AMM
state) and the MarketPosition unchanged, for every starting state and every
collaborator behaviour. -/
theorem increase_zero_is_noop :
    ∀ (swap_quote_asset : SwapQuoteFn) (swap_base_asset : SwapBaseFn)
      (direction : PositionDirection) (market : Market)
      (market_position : MarketPosition) (now : Int),
      increase swap_quote_asset direction 0 market market_position now =
        Except.ok (market, market_position, 0) ∧
      increase_with_base_asset_amount swap_base_asset direction 0 market
        market_position now = Except.ok (market, market_position) := by
  intro swap_quote_asset swap_base_asset direction market market_position now
  exact ⟨rfl, rfl⟩

/-- C7: a nonzero-sized successful increase on a flat position snapshots the
cumulative funding rate of the trade direction (long rate for Long, short
rate for Short) into the position and increments the open interest by one;
on a non-flat position neither the snapshot nor the open interest changes. -/
theorem increase_opening_event :
    (∀ (swap_quote_asset : SwapQuoteFn) (direction : PositionDirection)
      (quote_asset_amount : Nat) (market : Market) (market_position : MarketPosition)
      (now : Int) (m' : Market) (p' : MarketPosition) (d : Int),
      quote_asset_amount ≠ 0 →
      increase swap_quote_asset direction quote_asset_amount market market_position
        now = Except.ok (m', p', d) →
      (market_position.base_asset_amount = 0 →
        (direction = PositionDirection.Long →
          p'.last_cumulative_funding_rate = market.amm.cumulative_funding_rate_long) ∧
        (direction = PositionDirection.Short →
          p'.last_cumulative_funding_rate = market.amm.cumulative_funding_rate_short) ∧
        m'.open_interest = market.open_interest + 1) ∧
      (market_position.base_asset_amount ≠ 0 →
        p'.last_cumulative_funding_rate =
          market_position.last_cumulative_funding_rate ∧
        m'.open_interest = market.open_interest)) ∧
    (∀ (swap_base_asset : SwapBaseFn) (direction : PositionDirection)
      (base_asset_amount : Nat) (market : Market) (market_position : MarketPosition)
      (now : Int) (m' : Market) (p' : MarketPosition),
      base_asset_amount ≠ 0 →
      increase_with_base_asset_amount swap_base_asset direction base_asset_amount
        market market_position now = Except.ok (m', p') →
      (market_position.base_asset_amount = 0 →
        (direction = PositionDirection.Long →
          p'.last_cumulative_funding_rate = market.amm.cumulative_funding_rate_long) ∧
        (direction = PositionDirection.Short →
          p'.last_cumulative_funding_rate = market.amm.cumulative_funding_rate_short) ∧
        m'.open_interest = market.open_interest + 1) ∧
      (market_position.base_asset_amount ≠ 0 →
        p'.last_cumulative_funding_rate =
          market_position.last_cumulative_funding_rate ∧
        m'.open_interest = market.open_interest)) := by
  constructor
  · intro swap_quote_asset direction quote_asset_amount market market_position now
      m' p' d hqa h
    obtain ⟨-, -, -, -, -, hflat, hnonflat⟩ := increase_ok_spec hqa h
    refine ⟨fun h0 => ?_, hnonflat⟩
    obtain ⟨h1, h2⟩ := hflat h0
    refine ⟨fun hdir => ?_, fun hdir => ?_, h2⟩ <;> rw [h1, hdir] <;> rfl
  · intro swap_base_asset direction base_asset_amount market market_position now
      m' p' hba h
    obtain ⟨_, _, -, -, -, -, -, -, -, hflat, hnonflat⟩ := increase_with_base_ok_spec hba h
    refine ⟨fun h0 => ?_, hnonflat⟩
    obtain ⟨h1, h2⟩ := hflat h0
    refine ⟨fun hdir => ?_, fun hdir => ?_, h2⟩ <;> rw [h1, hdir] <;> rfl

/-- C2: the aggregate-consistency invariant, Market.base_asset_amount equal
to the sum of the long and short buckets, is preserved by every successful
call to each of the five engine operations, for every starting state
satisfying it and every collaborator behaviour. -/
theorem aggregate_sum_invariant :
    (∀ (swap_quote_asset : SwapQuoteFn) (direction : PositionDirection)
      (quote_asset_amount : Nat) (market : Market) (market_position : MarketPosition)
      (now : Int) (m' : Market) (p' : MarketPosition) (d : Int),
      market.base_asset_amount =
        market.base_asset_amount_long + market.base_asset_amount_short →
      increase swap_quote_asset direction quote_asset_amount market market_position
        now = Except.ok (m', p', d) →
      m'.base_asset_amount = m'.base_asset_amount_long + m'.base_asset_amount_short) ∧
    (∀ (swap_base_asset : SwapBaseFn) (direction : PositionDirection)
      (base_asset_amount : Nat) (market : Market) (market_position : MarketPosition)
      (now : Int) (m' : Market) (p' : MarketPosition),
      market.base_asset_amount =
        market.base_asset_amount_long + market.base_asset_amount_short →
      increase_with_base_asset_amount swap_base_asset direction base_asset_amount
        market market_position now = Except.ok (m', p') →
      m'.base_asset_amount = m'.base_asset_amount_long + m'.base_asset_amount_short) ∧
    (∀ (swap_quote_asset : SwapQuoteFn) (calculate_updated_collateral : CollateralFn)
      (direction : PositionDirection) (quote_asset_swap_amount : Nat) (user : User)
      (market : Market) (market_position : MarketPosition) (now : Int)
      (precomputed_mark_price : Option Nat) (u' : User) (m' : Market)
      (p' : MarketPosition) (d : Int),
      market.base_asset_amount =
        market.base_asset_amount_long + market.base_asset_amount_short →
      reduce swap_quote_asset calculate_updated_collateral direction
        quote_asset_swap_amount user market market_position now
        precomputed_mark_price = Except.ok (u', m', p', d) →
      m'.base_asset_amount = m'.base_asset_amount_long + m'.base_asset_amount_short) ∧
    (∀ (swap_base_asset : SwapBaseFn) (calculate_updated_collateral : CollateralFn)
      (direction : PositionDirection) (base_asset_amount : Nat) (user : User)
      (market : Market) (market_position : MarketPosition) (now : Int)
      (u' : User) (m' : Market) (p' : MarketPosition),
      market.base_asset_amount =
        market.base_asset_amount_long + market.base_asset_amount_short →
      reduce_with_base_asset_amount swap_base_asset calculate_updated_collateral
        direction base_asset_amount user market market_position now =
        Except.ok (u', m', p') →
      m'.base_asset_amount = m'.base_asset_amount_long + m'.base_asset_amount_short) ∧
    (∀ (swap_base_asset : SwapBaseFn) (calculate_pnl : PnlFn)
      (calculate_updated_collateral : CollateralFn) (user : User) (market : Market)
      (market_position : MarketPosition) (now : Int) (u' : User) (m' : Market)
      (p' : MarketPosition) (bv : Nat) (pba : Int),
      market.base_asset_amount =
        market.base_asset_amount_long + market.base_asset_amount_short →
      close swap_base_asset calculate_pnl calculate_updated_collateral user market
        market_position now = Except.ok (u', m', p', bv, pba) →
      m'.base_asset_amount = m'.base_asset_amount_long + m'.base_asset_amount_short) := by
  refine ⟨?_, ?_, ?_, ?_, ?_⟩
  · intro swap_quote_asset direction quote_asset_amount market market_position now
      m' p' d hinv h
    by_cases hqa : quote_asset_amount = 0
    · subst hqa
      rw [(increase_zero_is_noop swap_quote_asset (fun a _ _ _ => none) direction
        market market_position now).1] at h
      injection h with h
      rw [Prod.mk.injEq, Prod.mk.injEq] at h
      obtain ⟨hm, -, -⟩ := h
      rw [← hm]
      exact hinv
    · obtain ⟨-, -, hbase, hpos, hneg, -, -⟩ := increase_ok_spec hqa h
      by_cases hp : 0 < p'.base_asset_amount
      · obtain ⟨hl, hs⟩ := hpos hp
        omega
      · obtain ⟨hs, hl⟩ := hneg hp
        omega
  · intro swap_base_asset direction base_asset_amount market market_position now
      m' p' hinv h
    by_cases hba : base_asset_amount = 0
    · subst hba
      rw [(increase_zero_is_noop (fun a _ _ _ _ => none) swap_base_asset direction
        market market_position now).2] at h
      injection h with h
      rw [Prod.mk.injEq] at h
      obtain ⟨hm, -⟩ := h
      rw [← hm]
      exact hinv
    · obtain ⟨_, _, -, -, -, -, hbase, hpos, hneg, -, -⟩ :=
        increase_with_base_ok_spec hba h
      by_cases hp : 0 < p'.base_asset_amount
      · obtain ⟨hl, hs⟩ := hpos hp
        omega
      · obtain ⟨hs, hl⟩ := hneg hp
        omega
  · intro swap_quote_asset calculate_updated_collateral direction
      quote_asset_swap_amount user market market_position now precomputed_mark_price
      u' m' p' d hinv h
    obtain ⟨-, -, hbase, -, -, hpos, hneg, -⟩ := reduce_ok_spec h
    by_cases hp : 0 < p'.base_asset_amount
    · obtain ⟨hl, hs⟩ := hpos hp
      omega
    · obtain ⟨hs, hl⟩ := hneg hp
      omega
  · intro swap_base_asset calculate_updated_collateral direction base_asset_amount
      user market market_position now u' m' p' hinv h
    obtain ⟨-, _, _, -, -, -, -, hbase, -, -, hpos, hneg, -⟩ :=
      reduce_with_base_ok_spec h
    by_cases hp : 0 < p'.base_asset_amount
    · obtain ⟨hl, hs⟩ := hpos hp
      omega
    · obtain ⟨hs, hl⟩ := hneg hp
      omega
  · intro swap_base_asset calculate_pnl calculate_updated_collateral user market
      market_position now u' m' p' bv pba hinv h
    by_cases hbase : market_position.base_asset_amount = 0
    · unfold close at h
      rw [if_pos hbase] at h
      injection h with h
      rw [Prod.mk.injEq, Prod.mk.injEq] at h
      obtain ⟨-, hm, -⟩ := h
      rw [← hm]
      exact hinv
    · obtain ⟨-, -, -, -, -, -, -, -, hb, hpos, hneg, -⟩ := close_ok_spec hbase h
      by_cases hp : 0 < market_position.base_asset_amount
      · obtain ⟨hl, hs⟩ := hpos hp
        omega
      · obtain ⟨hs, hl⟩ := hneg hp
        omega

/-- C3: in both reduce variants a successful call has a nonzero starting
base amount, the cost basis closed is the truncating integer division
quote * |before - after| / |before| computed on the pre-subtraction quote
amount, and exactly this value is subtracted from the position quote
amount. -/
theorem reduce_proportional_cost_basis :
    (∀ (swap_quote_asset : SwapQuoteFn) (calculate_updated_collateral : CollateralFn)
      (direction : PositionDirection) (quote_asset_swap_amount : Nat) (user : User)
      (market : Market) (market_position : MarketPosition) (now : Int)
      (precomputed_mark_price : Option Nat) (u' : User) (m' : Market)
      (p' : MarketPosition) (d : Int),
      reduce swap_quote_asset calculate_updated_collateral direction
        quote_asset_swap_amount user market market_position now
        precomputed_mark_price = Except.ok (u', m', p', d) →
      market_position.base_asset_amount ≠ 0 ∧
      market_position.quote_asset_amount *
          (market_position.base_asset_amount - p'.base_asset_amount).natAbs /
          market_position.base_asset_amount.natAbs ≤
        market_position.quote_asset_amount ∧
      p'.quote_asset_amount = market_position.quote_asset_amount -
        market_position.quote_asset_amount *
          (market_position.base_asset_amount - p'.base_asset_amount).natAbs /
          market_position.base_asset_amount.natAbs) ∧
    (∀ (swap_base_asset : SwapBaseFn) (calculate_updated_collateral : CollateralFn)
      (direction : PositionDirection) (base_asset_amount : Nat) (user : User)
      (market : Market) (market_position : MarketPosition) (now : Int)
      (u' : User) (m' : Market) (p' : MarketPosition),
      reduce_with_base_asset_amount swap_base_asset calculate_updated_collateral
        direction base_asset_amount user market market_position now =
        Except.ok (u', m', p') →
      market_position.base_asset_amount ≠ 0 ∧
      market_position.quote_asset_amount *
          (market_position.base_asset_amount - p'.base_asset_amount).natAbs /
          market_position.base_asset_amount.natAbs ≤
        market_position.quote_asset_amount ∧
      p'.quote_asset_amount = market_position.quote_asset_amount -
        market_position.quote_asset_amount *
          (market_position.base_asset_amount - p'.base_asset_amount).natAbs /
          market_position.base_asset_amount.natAbs) := by
  constructor
  · intro swap_quote_asset calculate_updated_collateral direction
      quote_asset_swap_amount user market market_position now precomputed_mark_price
      u' m' p' d h
    obtain ⟨hb0, -, -, -, -, -, -, closed, hc, hle, hq, -⟩ := reduce_ok_spec h
    subst hc
    exact ⟨hb0, hle, hq⟩
  · intro swap_base_asset calculate_updated_collateral direction base_asset_amount
      user market market_position now u' m' p' h
    obtain ⟨hb0, _, _, -, -, -, -, -, -, -, -, -, closed, hc, hle, hq, -⟩ :=
      reduce_with_base_ok_spec h
    subst hc
    exact ⟨hb0, hle, hq⟩

/-- C4: the PnL handed to the collateral updater is selected asymmetrically:
the quote-denominated reduce branches on the sign of the resulting position
(swap amount minus closed basis when the post-update base is positive, the
mirrored difference otherwise), while the base-denominated reduce branches
on the trade direction being Short, independent of the resulting sign. -/
theorem reduce_pnl_sign_asymmetry :
    (∀ (swap_quote_asset : SwapQuoteFn) (calculate_updated_collateral : CollateralFn)
      (direction : PositionDirection) (quote_asset_swap_amount : Nat) (user : User)
      (market : Market) (market_position : MarketPosition) (now : Int)
      (precomputed_mark_price : Option Nat) (u' : User) (m' : Market)
      (p' : MarketPosition) (d : Int),
      reduce swap_quote_asset calculate_updated_collateral direction
        quote_asset_swap_amount user market market_position now
        precomputed_mark_price = Except.ok (u', m', p', d) →
      ∃ closed : Nat,
        closed = market_position.quote_asset_amount *
            (market_position.base_asset_amount - p'.base_asset_amount).natAbs /
            market_position.base_asset_amount.natAbs ∧
        calculate_updated_collateral user.collateral
          (if 0 < p'.base_asset_amount
            then (quote_asset_swap_amount : Int) - (closed : Int)
            else (closed : Int) - (quote_asset_swap_amount : Int)) =
          some u'.collateral) ∧
    (∀ (swap_base_asset : SwapBaseFn) (calculate_updated_collateral : CollateralFn)
      (direction : PositionDirection) (base_asset_amount : Nat) (user : User)
      (market : Market) (market_position : MarketPosition) (now : Int)
      (u' : User) (m' : Market) (p' : MarketPosition),
      reduce_with_base_asset_amount swap_base_asset calculate_updated_collateral
        direction base_asset_amount user market market_position now =
        Except.ok (u', m', p') →
      ∃ (quote_asset_swapped closed : Nat),
        swap_base_asset market.amm base_asset_amount (base_swap_direction direction)
          now = some (m'.amm, quote_asset_swapped) ∧
        closed = market_position.quote_asset_amount *
            (market_position.base_asset_amount - p'.base_asset_amount).natAbs /
            market_position.base_asset_amount.natAbs ∧
        calculate_updated_collateral user.collateral
          (if direction = PositionDirection.Short
            then (quote_asset_swapped : Int) - (closed : Int)
            else (closed : Int) - (quote_asset_swapped : Int)) =
          some u'.collateral) := by
  constructor
  · intro swap_quote_asset calculate_updated_collateral direction
      quote_asset_swap_amount user market market_position now precomputed_mark_price
      u' m' p' d h
    obtain ⟨-, -, -, -, -, -, -, closed, hc, -, -, hcalc⟩ := reduce_ok_spec h
    exact ⟨closed, hc, hcalc⟩
  · intro swap_base_asset calculate_updated_collateral direction base_asset_amount
      user market market_position now u' m' p' h
    obtain ⟨-, qs, _, hswap, -, -, -, -, -, -, -, -, closed, hc, -, -, hcalc⟩ :=
      reduce_with_base_ok_spec h
    exact ⟨qs, closed, hswap, hc, hcalc⟩

/-- C6: in both reduce variants the market open interest is decremented by
one exactly when the post-update position base amount is zero, and is left
unchanged whenever the post-update base amount is nonzero. -/
theorem reduce_open_interest_update :
    (∀ (swap_quote_asset : SwapQuoteFn) (calculate_updated_collateral : CollateralFn)
      (direction : PositionDirection) (quote_asset_swap_amount : Nat) (user : User)
      (market : Market) (market_position : MarketPosition) (now : Int)
      (precomputed_mark_price : Option Nat) (u' : User) (m' : Market)
      (p' : MarketPosition) (d : Int),
      reduce swap_quote_asset calculate_updated_collateral direction
        quote_asset_swap_amount user market market_position now
        precomputed_mark_price = Except.ok (u', m', p', d) →
      (p'.base_asset_amount = 0 →
        m'.open_interest = market.open_interest - 1 ∧ 1 ≤ market.open_interest) ∧
      (p'.base_asset_amount ≠ 0 → m'.open_interest = market.open_interest)) ∧
    (∀ (swap_base_asset : SwapBaseFn) (calculate_updated_collateral : CollateralFn)
      (direction : PositionDirection) (base_asset_amount : Nat) (user : User)
      (market : Market) (market_position : MarketPosition) (now : Int)
      (u' : User) (m' : Market) (p' : MarketPosition),
      reduce_with_base_asset_amount swap_base_asset calculate_updated_collateral
        direction base_asset_amount user market market_position now =
        Except.ok (u', m', p') →
      (p'.base_asset_amount = 0 →
        m'.open_interest = market.open_interest - 1 ∧ 1 ≤ market.open_interest) ∧
      (p'.base_asset_amount ≠ 0 → m'.open_interest = market.open_interest)) := by
  constructor
  · intro swap_quote_asset calculate_updated_collateral direction
      quote_asset_swap_amount user market market_position now precomputed_mark_price
      u' m' p' d h
    obtain ⟨-, -, -, hoi, hle, -, -, -⟩ := reduce_ok_spec h
    constructor
    · intro h0
      rw [if_pos h0] at hoi hle
      exact ⟨hoi, hle⟩
    · intro h0
      rw [if_neg h0] at hoi
      omega
  · intro swap_base_asset calculate_updated_collateral direction base_asset_amount
      user market market_position now u' m' p' h
    obtain ⟨-, _, _, -, -, -, -, -, hoi, hle, -, -, -⟩ := reduce_with_base_ok_spec h
    constructor
    · intro h0
      rw [if_pos h0] at hoi hle
      exact ⟨hoi, hle⟩
    · intro h0
      rw [if_neg h0] at hoi
      omega

/-- C10: whenever a reduce leaves the position base amount exactly zero,
the applied delta (the negation of the starting base amount) is accumulated
into the short bucket, and the long bucket is left unchanged. -/
theorem reduce_full_unwind_buckets :
    (∀ (swap_quote_asset : SwapQuoteFn) (calculate_updated_collateral : CollateralFn)
      (direction : PositionDirection) (quote_asset_swap_amount : Nat) (user : User)
      (market : Market) (market_position : MarketPosition) (now : Int)
      (precomputed_mark_price : Option Nat) (u' : User) (m' : Market)
      (p' : MarketPosition) (d : Int),
      reduce swap_quote_asset calculate_updated_collateral direction
        quote_asset_swap_amount user market market_position now
        precomputed_mark_price = Except.ok (u', m', p', d) →
      p'.base_asset_amount = 0 →
      d = -market_position.base_asset_amount ∧
      m'.base_asset_amount_long = market.base_asset_amount_long ∧
      m'.base_asset_amount_short =
        market.base_asset_amount_short - market_position.base_asset_amount) ∧
    (∀ (swap_base_asset : SwapBaseFn) (calculate_updated_collateral : CollateralFn)
      (direction : PositionDirection) (base_asset_amount : Nat) (user : User)
      (market : Market) (market_position : MarketPosition) (now : Int)
      (u' : User) (m' : Market) (p' : MarketPosition),
      reduce_with_base_asset_amount swap_base_asset calculate_updated_collateral
        direction base_asset_amount user market market_position now =
        Except.ok (u', m', p') →
      p'.base_asset_amount = 0 →
      m'.base_asset_amount_long = market.base_asset_amount_long ∧
      m'.base_asset_amount_short =
        market.base_asset_amount_short - market_position.base_asset_amount) := by
  constructor
  · intro swap_quote_asset calculate_updated_collateral direction
      quote_asset_swap_amount user market market_position now precomputed_mark_price
      u' m' p' d h h0
    obtain ⟨-, hpb, -, -, -, -, hneg, -⟩ := reduce_ok_spec h
    have hnp : ¬0 < p'.base_asset_amount := by omega
    obtain ⟨hs, hl⟩ := hneg hnp
    refine ⟨by omega, hl, by omega⟩
  · intro swap_base_asset calculate_updated_collateral direction base_asset_amount
      user market market_position now u' m' p' h h0
    obtain ⟨-, _, delta, -, -, -, hpb, -, -, -, -, hneg, -⟩ :=
      reduce_with_base_ok_spec h
    have hnp : ¬0 < p'.base_asset_amount := by omega
    obtain ⟨hs, hl⟩ := hneg hnp
    refine ⟨hl, by omega⟩

/-- C5: a successful close of a non-flat position zeroes the position base
amount, quote amount, funding snapshot and funding timestamp, decrements
the open interest by exactly one, subtracts the pre-reset base amount from
the market net base amount and from the bucket matching its sign, and
returns the AMM quote value of the swap paired with the pre-reset base
amount; closing an already-flat position returns (0, 0) and changes
nothing. -/
theorem close_spec :
    (∀ (swap_base_asset : SwapBaseFn) (calculate_pnl : PnlFn)
      (calculate_updated_collateral : CollateralFn) (user : User) (market : Market)
      (market_position : MarketPosition) (now : Int) (u' : User) (m' : Market)
      (p' : MarketPosition) (bv : Nat) (pba : Int),
      market_position.base_asset_amount ≠ 0 →
      close swap_base_asset calculate_pnl calculate_updated_collateral user market
        market_position now = Except.ok (u', m', p', bv, pba) →
      p'.base_asset_amount = 0 ∧
      p'.quote_asset_amount = 0 ∧
      p'.last_cumulative_funding_rate = 0 ∧
      p'.last_funding_rate_ts = 0 ∧
      m'.open_interest = market.open_interest - 1 ∧
      1 ≤ market.open_interest ∧
      m'.base_asset_amount =
        market.base_asset_amount - market_position.base_asset_amount ∧
      (0 < market_position.base_asset_amount →
        m'.base_asset_amount_long =
          market.base_asset_amount_long - market_position.base_asset_amount ∧
        m'.base_asset_amount_short = market.base_asset_amount_short) ∧
      (market_position.base_asset_amount < 0 →
        m'.base_asset_amount_short =
          market.base_asset_amount_short - market_position.base_asset_amount ∧
        m'.base_asset_amount_long = market.base_asset_amount_long) ∧
      pba = market_position.base_asset_amount ∧
      swap_base_asset market.amm market_position.base_asset_amount.natAbs
        (close_swap_direction market_position.base_asset_amount) now =
        some (m'.amm, bv)) ∧
    (∀ (swap_base_asset : SwapBaseFn) (calculate_pnl : PnlFn)
      (calculate_updated_collateral : CollateralFn) (user : User) (market : Market)
      (market_position : MarketPosition) (now : Int),
      market_position.base_asset_amount = 0 →
      close swap_base_asset calculate_pnl calculate_updated_collateral user market
        market_position now = Except.ok (user, market, market_position, 0, 0)) := by
  constructor
  · intro swap_base_asset calculate_pnl calculate_updated_collateral user market
      market_position now u' m' p' bv pba hbase h
    obtain ⟨hswap, hpba, hp0, hq0, hf0, hts0, hoi, hle, hmb, hpos, hneg, -⟩ :=
      close_ok_spec hbase h
    refine ⟨hp0, hq0, hf0, hts0, hoi, hle, hmb, hpos, fun hlt => hneg (by omega), hpba,
      hswap⟩
  · intro swap_base_asset calculate_pnl calculate_updated_collateral user market
      market_position now hbase
    unfold close
    rw [if_pos hbase]

/-- C9: slot allocation scans the user position collection in sequence
order, returns the index of the first available slot after overwriting it
with a zero-initialised position carrying the requested market index while
every other slot is untouched, and fails with the max-positions error
exactly when no slot is available. -/
theorem add_new_position_spec :
    ∀ (user_positions : UserPositions) (market_index : Nat),
      (∀ e, add_new_position user_positions market_index = Except.error e →
        e = ErrorCode.MaxNumberOfPositions ∧
        ∀ p ∈ user_positions.positions, p.is_available = false) ∧
      ((∀ p ∈ user_positions.positions, p.is_available = false) →
        add_new_position user_positions market_index =
          Except.error ErrorCode.MaxNumberOfPositions) ∧
      (∀ ps' i, add_new_position user_positions market_index = Except.ok (ps', i) →
        ∃ h : i < user_positions.positions.length,
          (user_positions.positions.get ⟨i, h⟩).is_available = true ∧
          (∀ j (hj : j < user_positions.positions.length), j < i →
            (user_positions.positions.get ⟨j, hj⟩).is_available = false) ∧
          ps'.positions = user_positions.positions.set i
            { market_index := market_index
              base_asset_amount := 0
              quote_asset_amount := 0
              last_cumulative_funding_rate := 0
              last_cumulative_repeg_rebate := 0
              last_funding_rate_ts := 0
              open_orders := 0
              padding0 := 0, padding1 := 0, padding2 := 0, padding3 := 0
              padding4 := 0, padding5 := 0, padding6 := 0 } ∧
          (∀ j, j ≠ i → ps'.positions[j]? = user_positions.positions[j]?)) := by
  intro user_positions market_index
  refine ⟨?_, ?_, ?_⟩
  · intro e h
    unfold add_new_position at h
    split at h
    · rename_i hnone
      rw [List.findIdx?_eq_none_iff] at hnone
      injection h with h
      exact ⟨h.symm, fun p hp => by simpa using hnone p hp⟩
    · exact Except.noConfusion h
  · intro hall
    unfold add_new_position
    have hnone : user_positions.positions.findIdx?
        (fun p => p.is_available) = none := by
      rw [List.findIdx?_eq_none_iff]
      intro p hp
      simpa using hall p hp
    rw [hnone]
  · intro ps' i h
    unfold add_new_position at h
    split at h
    · exact Except.noConfusion h
    · rename_i idx hidx
      rw [List.findIdx?_eq_some_iff_getElem] at hidx
      obtain ⟨hlt, hpi, hbefore⟩ := hidx
      injection h with h
      rw [Prod.mk.injEq] at h
      obtain ⟨hps, hi⟩ := h
      subst hi
      refine ⟨hlt, by simpa [List.get_eq_getElem] using hpi, ?_, ?_, ?_⟩
      · intro j hj hji
        have := hbefore j hji
        simpa [List.get_eq_getElem] using this
      · rw [← hps]
      · intro j hji
        rw [← hps]
        exact List.getElem?_set_ne (by omega)

/-- Fixture for the failure-atomicity analysis: a position whose quote
amount sits at the unsigned 128-bit maximum, so that the quote addition in
`increase` overflows after the opening-event writes have happened. -/
def atomicity_position : MarketPosition :=
  { ex_position_flat with quote_asset_amount := U128_MOD - 1 }

/-- C1 counterexample: a failing call to `increase` whose error state
differs from the input state.  The position is flat with the quote amount
at the u128 maximum: `increase` first writes the funding-rate snapshot and
increments the open interest, then the checked quote addition overflows and
the call errors out with both earlier writes still in place, so an
AMM-swap or checked-arithmetic failure after earlier field writes does not
leave the inputs unmutated. -/
theorem increase_failure_observably_mutates :
    increase ex_swap_quote_3 PositionDirection.Long 1 ex_market_flat
        atomicity_position 0 =
      Except.error
        ({ ex_market_flat with open_interest := 1 },
          { atomicity_position with last_cumulative_funding_rate := 5 }) ∧
    ({ atomicity_position with last_cumulative_funding_rate := 5 } :
        MarketPosition).last_cumulative_funding_rate ≠
      atomicity_position.last_cumulative_funding_rate ∧
    ({ ex_market_flat with open_interest := 1 } : Market).open_interest ≠
      ex_market_flat.open_interest := by
  refine ⟨?_, by decide, by decide⟩
  rfl

/-- C1 amended: failures do not roll back field writes already performed,
but a failure that occurs before the first field write of the call leaves
every field unchanged; in particular a nonzero-sized `increase` on a
non-flat position whose checked quote addition overflows returns an error
carrying exactly the market and position that were passed in. -/
theorem increase_error_before_first_write
    (swap_quote_asset : SwapQuoteFn) (direction : PositionDirection)
    (quote_asset_amount : Nat) (market : Market) (market_position : MarketPosition)
    (now : Int)
    (hqa : quote_asset_amount ≠ 0)
    (hbase : market_position.base_asset_amount ≠ 0)
    (hover : U128_MOD ≤ market_position.quote_asset_amount + quote_asset_amount) :
    increase swap_quote_asset direction quote_asset_amount market market_position
      now = Except.error (market, market_position) := by
  have hno : ¬(market_position.quote_asset_amount + quote_asset_amount < U128_MOD) :=
    Nat.not_lt.mpr hover
  unfold increase open_position_step
  rw [if_neg hqa, if_neg hbase]
  dsimp only []
  unfold checked_add_u128
  rw [if_neg hno]

/-! ### Expected outputs of the concrete runs used by the witnesses -/

def exA_market : Market :=
  { ex_market_flat with
    base_asset_amount := 3, base_asset_amount_long := 3, open_interest := 1 }

def exA_position : MarketPosition :=
  { ex_position_flat with
    base_asset_amount := 3, quote_asset_amount := 10
    last_cumulative_funding_rate := 5 }

def exB_market : Market :=
  { ex_market_flat with
    base_asset_amount := 4, base_asset_amount_long := 4, open_interest := 1 }

def exB_position : MarketPosition :=
  { ex_position_flat with
    base_asset_amount := 4, quote_asset_amount := 7
    last_cumulative_funding_rate := 5 }

def exC_user : User := { collateral := 5100 }

def exC_market : Market :=
  { ex_market_long with base_asset_amount := 60, base_asset_amount_long := 60 }

def exC_position : MarketPosition :=
  { ex_position_flat with base_asset_amount := 60, quote_asset_amount := 600 }

def exD_user : User := { collateral := 4800 }

def exD_market : Market :=
  { ex_market_long with
    base_asset_amount := 0, base_asset_amount_long := 100
    base_asset_amount_short := -100, open_interest := 0 }

def exE_user : User := { collateral := 5800 }

def exG_user : User := { collateral := 5200 }

/-! ### Witnesses: each applies its claim theorem at a concrete input -/

/-- Witness for C7: concrete opening increases on a flat position snapshot
the long funding rate and bump the open interest. -/
theorem increase_opening_event_witness :
    exA_position.last_cumulative_funding_rate =
      ex_market_flat.amm.cumulative_funding_rate_long ∧
    exA_market.open_interest = ex_market_flat.open_interest + 1 ∧
    exB_position.last_cumulative_funding_rate =
      ex_market_flat.amm.cumulative_funding_rate_long ∧
    exB_market.open_interest = ex_market_flat.open_interest + 1 := by
  have h1 := (increase_opening_event.1 ex_swap_quote_3 PositionDirection.Long 10
    ex_market_flat ex_position_flat 0 exA_market exA_position 3 (by decide) rfl).1
    (by decide)
  have h2 := (increase_opening_event.2 ex_swap_base_7 PositionDirection.Long 4
    ex_market_flat ex_position_flat 0 exB_market exB_position (by decide) rfl).1
    (by decide)
  exact ⟨h1.1 rfl, h1.2.2, h2.1 rfl, h2.2.2⟩

/-- Witness for C2: the bucket-sum invariant holds in the concrete outputs
of each of the five operations. -/
theorem aggregate_sum_invariant_witness :
    exA_market.base_asset_amount =
      exA_market.base_asset_amount_long + exA_market.base_asset_amount_short ∧
    exB_market.base_asset_amount =
      exB_market.base_asset_amount_long + exB_market.base_asset_amount_short ∧
    exC_market.base_asset_amount =
      exC_market.base_asset_amount_long + exC_market.base_asset_amount_short ∧
    exD_market.base_asset_amount =
      exD_market.base_asset_amount_long + exD_market.base_asset_amount_short ∧
    ex_market_flat.base_asset_amount =
      ex_market_flat.base_asset_amount_long + ex_market_flat.base_asset_amount_short := by
  refine ⟨?_, ?_, ?_, ?_, ?_⟩
  · exact aggregate_sum_invariant.1 ex_swap_quote_3 PositionDirection.Long 10
      ex_market_flat ex_position_flat 0 exA_market exA_position 3 (by decide) rfl
  · exact aggregate_sum_invariant.2.1 ex_swap_base_7 PositionDirection.Long 4
      ex_market_flat ex_position_flat 0 exB_market exB_position (by decide) rfl
  · exact aggregate_sum_invariant.2.2.1 ex_swap_quote_m40 ex_collateral
      PositionDirection.Short 500 ex_user ex_market_long ex_position_long 0 none
      exC_user exC_market exC_position (-40) (by decide) rfl
  · exact aggregate_sum_invariant.2.2.2.1 ex_swap_base_1200 ex_collateral
      PositionDirection.Short 100 ex_user ex_market_long ex_position_long 0
      exG_user exD_market ex_position_flat (by decide) rfl
  · exact aggregate_sum_invariant.2.2.2.2 ex_swap_base_1200 ex_calculate_pnl
      ex_collateral ex_user ex_market_long ex_position_long 0 exG_user
      ex_market_flat ex_position_flat 1200 100 (by decide) rfl

/-- Witness for C3: the spec example, a long position with base 100 and
quote 1000 reduced by 40 base units, closes exactly 400 of cost basis and
leaves 600, in both reduce variants. -/
theorem reduce_proportional_cost_basis_witness :
    ex_position_long.base_asset_amount ≠ 0 ∧
    exC_position.quote_asset_amount = ex_position_long.quote_asset_amount -
      ex_position_long.quote_asset_amount *
        (ex_position_long.base_asset_amount - exC_position.base_asset_amount).natAbs /
        ex_position_long.base_asset_amount.natAbs ∧
    ex_position_long.quote_asset_amount *
        (ex_position_long.base_asset_amount - exC_position.base_asset_amount).natAbs /
        ex_position_long.base_asset_amount.natAbs = 400 ∧
    exC_position.quote_asset_amount = 600 := by
  have h1 := reduce_proportional_cost_basis.1 ex_swap_quote_m40 ex_collateral
    PositionDirection.Short 500 ex_user ex_market_long ex_position_long 0 none
    exC_user exC_market exC_position (-40) rfl
  have h2 := (reduce_proportional_cost_basis.2 ex_swap_base_1200 ex_collateral
    PositionDirection.Short 40 ex_user ex_market_long ex_position_long 0
    exE_user exC_market exC_position rfl).1
  exact ⟨h1.1, h1.2.2, by decide, by decide⟩

/-- Witness for C4: in the concrete reduce runs the collateral update
receives the swap amount minus the closed basis, selected by the resulting
sign for the quote path and by the Short direction for the base path. -/
theorem reduce_pnl_sign_asymmetry_witness :
    ex_collateral ex_user.collateral
      (if 0 < exC_position.base_asset_amount
        then ((500 : Nat) : Int) - ((400 : Nat) : Int)
        else ((400 : Nat) : Int) - ((500 : Nat) : Int)) = some exC_user.collateral ∧
    ex_collateral ex_user.collateral
      (if PositionDirection.Short = PositionDirection.Short
        then ((1200 : Nat) : Int) - ((400 : Nat) : Int)
        else ((400 : Nat) : Int) - ((1200 : Nat) : Int)) = some exE_user.collateral := by
  constructor
  · obtain ⟨closed, hc, hcalc⟩ := (reduce_pnl_sign_asymmetry.1 ex_swap_quote_m40
      ex_collateral PositionDirection.Short 500 ex_user ex_market_long
      ex_position_long 0 none exC_user exC_market exC_position (-40) rfl)
    have h400 : closed = 400 := by rw [hc]; rfl
    subst h400
    exact hcalc
  · obtain ⟨qs, closed, hswap, hc, hcalc⟩ := (reduce_pnl_sign_asymmetry.2
      ex_swap_base_1200 ex_collateral PositionDirection.Short 40 ex_user
      ex_market_long ex_position_long 0 exE_user exC_market exC_position rfl)
    have h400 : closed = 400 := by rw [hc]; rfl
    have h1200 : (1200 : Nat) = qs := by
      have hs := hswap
      unfold ex_swap_base_1200 at hs
      injection hs with hs
      rw [Prod.mk.injEq] at hs
      exact hs.2
    subst h400
    rw [← h1200] at hcalc
    exact hcalc

/-- Witness for C6: the concrete full unwind decrements the open interest
by one, the concrete partial reduces leave it unchanged. -/
theorem reduce_open_interest_update_witness :
    exD_market.open_interest = ex_market_long.open_interest - 1 ∧
    1 ≤ ex_market_long.open_interest ∧
    exC_market.open_interest = ex_market_long.open_interest := by
  have hfull := (reduce_open_interest_update.1 ex_swap_quote_m100 ex_collateral
    PositionDirection.Short 1200 ex_user ex_market_long ex_position_long 0 none
    exD_user exD_market ex_position_flat (-100) rfl).1 (by decide)
  have hpart := (reduce_open_interest_update.2 ex_swap_base_1200 ex_collateral
    PositionDirection.Short 40 ex_user ex_market_long ex_position_long 0
    exE_user exC_market exC_position rfl).2 (by decide)
  exact ⟨hfull.1, hfull.2, hpart⟩

/-- Witness for C10: the concrete full unwinds leave the long bucket at its
prior value of 100 while the short bucket absorbs -100. -/
theorem reduce_full_unwind_buckets_witness :
    (-100 : Int) = -ex_position_long.base_asset_amount ∧
    exD_market.base_asset_amount_long = ex_market_long.base_asset_amount_long ∧
    exD_market.base_asset_amount_short =
      ex_market_long.base_asset_amount_short - ex_position_long.base_asset_amount := by
  have h1 := reduce_full_unwind_buckets.1 ex_swap_quote_m100 ex_collateral
    PositionDirection.Short 1200 ex_user ex_market_long ex_position_long 0 none
    exD_user exD_market ex_position_flat (-100) rfl (by decide)
  have h2 := reduce_full_unwind_buckets.2 ex_swap_base_1200 ex_collateral
    PositionDirection.Short 100 ex_user ex_market_long ex_position_long 0
    exG_user exD_market ex_position_flat rfl (by decide)
  exact ⟨h1.1, h2.1, h2.2⟩

/-- Witness for C5: the concrete close zeroes the position, decrements the
open interest, clears the aggregates, and returns the swapped quote value
1200 with the prior base amount 100; closing a flat position is the
identity with a (0, 0) result. -/
theorem close_spec_witness :
    ex_position_flat.base_asset_amount = 0 ∧
    ex_position_flat.quote_asset_amount = 0 ∧
    ex_market_flat.open_interest = ex_market_long.open_interest - 1 ∧
    ex_market_flat.base_asset_amount =
      ex_market_long.base_asset_amount - ex_position_long.base_asset_amount ∧
    (100 : Int) = ex_position_long.base_asset_amount ∧
    close ex_swap_base_1200 ex_calculate_pnl ex_collateral ex_user ex_market_flat
      ex_position_flat 0 = Except.ok (ex_user, ex_market_flat, ex_position_flat, 0, 0) := by
  have h1 := close_spec.1 ex_swap_base_1200 ex_calculate_pnl ex_collateral ex_user
    ex_market_long ex_position_long 0 exG_user ex_market_flat ex_position_flat
    1200 100 (by decide) rfl
  have h2 := close_spec.2 ex_swap_base_1200 ex_calculate_pnl ex_collateral ex_user
    ex_market_flat ex_position_flat 0 (by decide)
  exact ⟨h1.1, h1.2.1, h1.2.2.2.2.1, h1.2.2.2.2.2.2.1, h1.2.2.2.2.2.2.2.2.2.1, h2⟩

/-- The freshly zero-initialised slot that C9 witness allocation writes. -/
def ex_fresh_position_9 : MarketPosition :=
  { market_index := 9
    base_asset_amount := 0
    quote_asset_amount := 0
    last_cumulative_funding_rate := 0
    last_cumulative_repeg_rebate := 0
    last_funding_rate_ts := 0
    open_orders := 0
    padding0 := 0, padding1 := 0, padding2 := 0, padding3 := 0
    padding4 := 0, padding5 := 0, padding6 := 0 }

/-- Witness for C9: allocating into a two-slot collection whose first slot
is taken picks index 1, the taken slot 0 is not available, and a collection
with no available slot fails with the max-positions error. -/
theorem add_new_position_spec_witness :
    add_new_position { positions := [ex_position_long] } 9 =
      Except.error ErrorCode.MaxNumberOfPositions ∧
    ([ex_position_long, ex_position_flat].get (1 : Fin 2)).is_available = true ∧
    ([ex_position_long, ex_position_flat].get (0 : Fin 2)).is_available = false := by
  have herr := (add_new_position_spec { positions := [ex_position_long] } 9).2.1
    (by decide)
  have hok := (add_new_position_spec { positions := [ex_position_long, ex_position_flat] }
    9).2.2 { positions := ([ex_position_long, ex_position_flat].set 1 ex_fresh_position_9) }
    1 rfl
  obtain ⟨hlt, havail, hbefore, -, -⟩ := hok
  exact ⟨herr, havail, hbefore 0 (by decide) (by decide)⟩

/-- Witness for the amended C1: a concrete nonzero increase on a non-flat
position whose quote addition overflows errors out with the exact inputs as
the error state. -/
def atomicity_nonflat_position : MarketPosition :=
  { ex_position_long with quote_asset_amount := U128_MOD - 1 }

theorem increase_error_before_first_write_witness :
    (1 : Nat) ≠ 0 ∧
    atomicity_nonflat_position.base_asset_amount ≠ 0 ∧
    U128_MOD ≤ atomicity_nonflat_position.quote_asset_amount + 1 ∧
    increase ex_swap_quote_3 PositionDirection.Long 1 ex_market_long
      atomicity_nonflat_position 0 =
      Except.error (ex_market_long, atomicity_nonflat_position) := by
  refine ⟨by decide, by decide, by decide, ?_⟩
  exact increase_error_before_first_write ex_swap_quote_3 PositionDirection.Long 1
    ex_market_long atomicity_nonflat_position 0 (by decide) (by decide) (by decide)

end ClearingHouse
